import Mathlib

/- Verification of the submission-evaluation orchestrator
(src/orchestrator/main.py): a shallow embedding of the per-item pipeline
(`process_student_submission`), the helper process runners, the
duplicate-finder stdout parser, the scheduler's crash isolation and the
sorted report aggregation, together with theorems about them. -/

/-- Drops the literal `lit` from the front of `cs`; `none` when `cs` does not
start with `lit`. Models Python's literal matching of a string at a position. -/
def dropLit : List Char → List Char → Option (List Char)
  | cs, [] => some cs
  | [], _ :: _ => none
  | c :: cs, l :: ls => if c = l then dropLit cs ls else none

/-- Tests whether `cs` starts with the literal `lit` (Python `str.startswith`). -/
def hasPre (cs lit : List Char) : Bool := (dropLit cs lit).isSome

/-- Tests whether `needle` occurs inside the character list (Python `in` on str). -/
def containsSub : List Char → List Char → Bool
  | [], needle => needle.isEmpty
  | c :: rest, needle => hasPre (c :: rest) needle || containsSub rest needle

/-- Python `needle in hay` on strings. -/
def pyContains (hay needle : String) : Bool := containsSub hay.data needle.data

/-- Numeric value of a run of decimal digits (Python `int` applied to the
matched digit group). -/
def digitsToNat (ds : List Char) : Nat := ds.foldl (fun a c => a * 10 + (c.toNat - 48)) 0

/-- Result of `subprocess.run(..., check=True, capture_output=True)` when it
returns normally: exit code 0 and both captured streams. -/
structure CompletedProc where
  returncode : Nat
  stdout : String
  stderr : String
deriving DecidableEq

/-- Possible outcomes of launching an external executable: exit 0, a non-zero
exit (which raises `CalledProcessError` under `check=True`), or a launch
failure (`FileNotFoundError`: executable not found / not runnable). -/
inductive ExecOutcome where
  | exitZero (stdout stderr : String)
  | exitNonZero (code : Nat) (stderr : String)
  | notFound

/-- Embedding of `run_executable`: the completed process is returned on exit 0;
both the `FileNotFoundError` handler and the `CalledProcessError` handler
return `None` (they differ only in what they log). -/
def run_executable : ExecOutcome → Option CompletedProc
  | ExecOutcome.exitZero out err => some { returncode := 0, stdout := out, stderr := err }
  | ExecOutcome.exitNonZero _ _ => none
  | ExecOutcome.notFound => none

/-- Outcomes of running a plain python script through the current interpreter
(`run_plain_python_script`): the interpreter is the already-running
`sys.executable`, so only exit 0 / non-zero exit occur. -/
inductive ScriptOutcome where
  | exitZero (stdout stderr : String)
  | exitNonZero (code : Nat) (stderr : String)

/-- Embedding of `run_plain_python_script`: the completed process on exit 0,
`None` when `CalledProcessError` is raised. -/
def run_plain_python_script : ScriptOutcome → Option CompletedProc
  | ScriptOutcome.exitZero out err => some { returncode := 0, stdout := out, stderr := err }
  | ScriptOutcome.exitNonZero _ _ => none

/-- JSON values as produced by `json.load`. -/
inductive JValue where
  | jnull
  | jbool (b : Bool)
  | jnum (n : Int)
  | jstr (s : String)
  | jarr (xs : List JValue)
  | jobj (fields : List (String × JValue))

/-- Key lookup in a JSON object (Python `dict.get`). -/
def jlookup : List (String × JValue) → String → Option JValue
  | [], _ => none
  | (k, v) :: rest, key => if k = key then some v else jlookup rest key

/-- State of the decrypted signature file as observed by
`parse_signature_file`: missing on disk, present but not valid JSON, or
parsed JSON data. -/
inductive SigInput where
  | absent
  | badJson
  | json (v : JValue)

/-- Embedding of `parse_signature_file`: extracts `data["location_info"]["city"]`
with `.get` chaining. A missing file gives `FILE_NOT_FOUND`; invalid JSON gives
`JSON_DECODE_ERROR`; calling `.get` on a non-dict raises and is caught as
`UNKNOWN_PARSING_ERROR`; the extracted city is returned only when it is a
truthy (non-empty) string, otherwise `KEY_OR_TYPE_INVALID`. -/
def parse_signature_file : SigInput → String
  | SigInput.absent => "FILE_NOT_FOUND"
  | SigInput.badJson => "JSON_DECODE_ERROR"
  | SigInput.json v =>
    match v with
    | JValue.jobj fields =>
      match (jlookup fields "location_info").getD (JValue.jobj []) with
      | JValue.jobj inner =>
        match jlookup inner "city" with
        | some (JValue.jstr s) => if s = "" then "KEY_OR_TYPE_INVALID" else s
        | _ => "KEY_OR_TYPE_INVALID"
      | _ => "UNKNOWN_PARSING_ERROR"
    | _ => "UNKNOWN_PARSING_ERROR"

/-- Content of the `process_analysis_score` report cell: the Python variable
holds either the parsed `int` or a sentinel `str`. -/
inductive Score where
  | int (n : Nat)
  | str (s : String)
deriving DecidableEq

/-- One row of the final report (the dict returned by
`process_student_submission` / assembled for a crashed task). -/
structure Record where
  student_id : String
  status : String
  duplication_group : String
  process_analysis_score : Score
  location : String
deriving DecidableEq

/-- Python dict assignment `m[k] = v`: overwrite an existing binding in place,
otherwise append the new binding. -/
def dinsert : List (String × String) → String → String → List (String × String)
  | [], k, v => [(k, v)]
  | (k0, v0) :: rest, k, v =>
    if k0 = k then (k, v) :: rest else (k0, v0) :: dinsert rest k v

/-- First-match lookup in the association-list model of a Python dict. -/
def dlookup : List (String × String) → String → Option String
  | [], _ => none
  | (k0, v0) :: rest, k => if k0 = k then some v0 else dlookup rest k

/-- Python `m.get(k, 'UNIQUE')`: the duplication-map consultation in
`process_student_submission`. -/
def dget (m : List (String × String)) (k : String) : String :=
  (dlookup m k).getD "UNIQUE"

/-- Environment of one student's pipeline run: the file-existence checks and
the external-tool outcomes observed at the corresponding program points of
`process_student_submission`. Each existence flag is the value of the
`.exists()` call at that point; each tool field is the outcome of the
corresponding invocation, were it attempted. -/
structure PipelineEnv where
  logEncryptedExists : Bool
  signatureEncryptedExists : Bool
  decodeLogOk : Bool
  decodeSignatureOk : Bool
  logDecryptedExists : Bool
  restoreOk : Bool
  originalMainExists : Bool
  logRestoredExists : Bool
  diffRun : ScriptOutcome
  inspectorExeExists : Bool
  inspectorRun : ExecOutcome
  signatureFile : SigInput

/-- STEP A loop over `files_to_decrypt`, one `(exists, decodeOk)` pair per
encrypted artifact: a missing input is skipped with `continue`; the first
failed decode sets `decryption_ok = False` and breaks. -/
def run_decrypt_loop : List (Bool × Bool) → Bool
  | [] => true
  | (ex, ok) :: rest =>
    if !ex then run_decrypt_loop rest
    else if ok then run_decrypt_loop rest
    else false

/-- The `decryption_ok` flag after STEP A: the loop runs over the encrypted
log and the encrypted signature, in that order. -/
def decryption_ok (env : PipelineEnv) : Bool :=
  run_decrypt_loop
    [(env.logEncryptedExists, env.decodeLogOk),
     (env.signatureEncryptedExists, env.decodeSignatureOk)]

/-- `pipeline_status` after STEP A. -/
def pipeline_status_after_decrypt (env : PipelineEnv) : String :=
  if decryption_ok env then "OK" else "DECRYPT_FAILED"

/-- `pipeline_status` after STEP B; STEP C and STEP D never assign to
`pipeline_status`, so this is also its value at final aggregation. -/
def pipeline_status_after_restore (env : PipelineEnv) : String :=
  if pipeline_status_after_decrypt env = "OK" then
    if !env.logDecryptedExists then "RESTORE_FAILED"
    else if env.restoreOk then "OK" else "RESTORE_FAILED"
  else pipeline_status_after_decrypt env

/-- Fixed identity marker checked in the diff tool's stdout. -/
def identity_marker : String := "✅ 파일이 실질적으로 동일합니다"

/-- `comparison_result` after STEP C. -/
def comparison_result_final (env : PipelineEnv) : String :=
  if pipeline_status_after_restore env = "OK" then
    if !(env.originalMainExists && env.logRestoredExists) then "FILE_MISSING"
    else
      match run_plain_python_script env.diffRun with
      | some res => if pyContains res.stdout identity_marker then "OK" else "DIFFERENT"
      | none => "CHECK_FAILED"
  else "NOT_CHECKED"

/-- Literal part of the score pattern before the digit group. -/
def score_marker : String := "⏺︎ 최종 앙상블 점수: "

/-- Literal part of the score pattern after the digit group. -/
def score_tail : String := " / 100"

/-- Tries to match the score regex at the start of `cs`: the literal marker,
then a maximal nonempty run of digits (greedy `(\d+)`, which cannot usefully
backtrack because the tail starts with a non-digit), then the literal
" / 100". Returns the numeric value of the digit group. -/
def matchScoreAt (cs : List Char) : Option Nat :=
  match dropLit cs score_marker.data with
  | none => none
  | some r1 =>
    let ds := r1.takeWhile Char.isDigit
    if ds.isEmpty then none
    else if hasPre (r1.dropWhile Char.isDigit) score_tail.data then some (digitsToNat ds)
    else none

/-- `re.search` for the score pattern: the leftmost position at which the
pattern matches. -/
def search_score : List Char → Option Nat
  | [] => matchScoreAt []
  | c :: rest =>
    match matchScoreAt (c :: rest) with
    | some n => some n
    | none => search_score rest

/-- `analysis_score` after STEP D. -/
def analysis_score_final (env : PipelineEnv) : Score :=
  if pipeline_status_after_restore env = "OK" then
    if !env.inspectorExeExists then Score.str "ANALYZER_MISSING"
    else if !env.logDecryptedExists then Score.str "FILE_MISSING"
    else
      match run_executable env.inspectorRun with
      | some res =>
        match search_score res.stdout.data with
        | some n => Score.int n
        | none => Score.str "SCORE_NOT_FOUND"
      | none => Score.str "ANALYSIS_FAILED"
  else Score.str "NOT_ANALYZED"

/-- Embedding of `process_student_submission`: the report row returned for one
student, given the observed environment and the duplication map. -/
def process_student_submission (student_id : String) (env : PipelineEnv)
    (duplication_map : List (String × String)) : Record :=
  { student_id := student_id
    status :=
      if pipeline_status_after_restore env = "OK" then comparison_result_final env
      else pipeline_status_after_restore env
    duplication_group := dget duplication_map student_id
    process_analysis_score := analysis_score_final env
    location := parse_signature_file env.signatureFile }

/-- Tries to match the student-id regex at the start of `cs`: the
`re.escape`d submission-directory literal, one path separator (`[\\/]`), then
the capture group `student-` followed by a maximal nonempty run of
non-separator characters (`[^\\/]+`). Returns the captured group. -/
def matchStudentAt (subDir cs : List Char) : Option String :=
  match dropLit cs subDir with
  | none => none
  | some r1 =>
    match r1 with
    | [] => none
    | sep :: r2 =>
      if sep = '/' ∨ sep = '\\' then
        match dropLit r2 ("student-".data) with
        | none => none
        | some r3 =>
          let run := r3.takeWhile (fun c => c != '/' && c != '\\')
          if run.isEmpty then none else some (String.mk ("student-".data ++ run))
      else none

/-- `student_id_pattern.search(line)`: leftmost match of the student-id regex. -/
def search_student (subDir : List Char) : List Char → Option String
  | [] => matchStudentAt subDir []
  | c :: rest =>
    match matchStudentAt subDir (c :: rest) with
    | some s => some s
    | none => search_student subDir rest

/-- Member-line handling of the parsing loop: the line must contain " - " and
the student-id regex must match (`" - " in line and (match := ...)`). -/
def line_extract (subDir line : String) : Option String :=
  if pyContains line " - " then search_student subDir.data line.data else none

/-- Python `chr(ord('A') + n - 1)` as a one-character string: the label
assigned when the n-th group delimiter is encountered. -/
def group_label (n : Nat) : String := String.mk [Char.ofNat (65 + n - 1)]

/-- Loop state of the duplicate-finder stdout parser: `group_counter`,
`current_group_id`, and the accumulated `duplication_map`. -/
structure DupState where
  counter : Nat
  current : String
  map : List (String × String)

/-- One iteration of the parsing loop in step 6 of `main`: a line starting
with "---" bumps the counter and relabels; otherwise a member line inserts
its extracted id under the current label; every other line is skipped. -/
def dupStep (subDir : String) (st : DupState) (line : String) : DupState :=
  if hasPre line.data ("---".data) then
    { counter := st.counter + 1, current := group_label (st.counter + 1), map := st.map }
  else
    match line_extract subDir line with
    | some sid => { st with map := dinsert st.map sid st.current }
    | none => st

/-- Python whitespace as stripped by `str.strip()`. -/
def pyIsSpace (c : Char) : Bool :=
  c == ' ' || c == '\t' || c == '\n' || c == '\r' || c == '\x0b' || c == '\x0c'

/-- Python `stdout.strip()`. -/
def pyStrip (s : String) : String :=
  String.mk (((s.data.dropWhile pyIsSpace).reverse.dropWhile pyIsSpace).reverse)

/-- Python `split('\n')` on the character list. -/
def splitNl : List Char → List (List Char)
  | [] => [[]]
  | c :: rest =>
    if c = '\n' then [] :: splitNl rest
    else
      match splitNl rest with
      | [] => [[c]]
      | s :: ss => (c :: s) :: ss

/-- The line list `stdout.split('\n')`. -/
def split_lines (s : String) : List String := (splitNl s.data).map String.mk

/-- The parsing loop of step 6 of `main` run over the given stdout lines,
starting from `group_counter = 0`, `current_group_id = ''`, empty map. -/
def dup_map_of_lines (subDir : String) (lines : List String) : List (String × String) :=
  (lines.foldl (dupStep subDir) { counter := 0, current := "", map := [] }).map

/-- The `duplication_map` built by `main` from the duplicate-finder stdout:
`dup_result.stdout.strip().split('\n')` fed through the parsing loop. -/
def build_duplication_map (subDir stdout : String) : List (String × String) :=
  dup_map_of_lines subDir (split_lines (pyStrip stdout))

/-- Specification-side view of the stdout lines: `id` is extracted from a
member line of section `n`, where section 0 is the preamble before any
delimiter line and section n (n ≥ 1) holds the member lines of the n-th
group. -/
def memberInSection (subDir id : String) : Nat → List String → Bool
  | _, [] => false
  | n, l :: ls =>
    if hasPre l.data ("---".data) then
      match n with
      | 0 => false
      | m + 1 => memberInSection subDir id m ls
    else (n == 0 && (line_extract subDir l == some id)) || memberInSection subDir id n ls

/-- Specification-side view: the label of the last section of `lines` in which
`id` is extracted, given the incoming current label `c` and group counter `k`;
`none` when `id` is never extracted. -/
def lastSectionLabel (subDir id : String) : String → Nat → List String → Option String
  | _, _, [] => none
  | c, k, l :: ls =>
    if hasPre l.data ("---".data) then
      lastSectionLabel subDir id (group_label (k + 1)) (k + 1) ls
    else if line_extract subDir l = some id then
      match lastSectionLabel subDir id c k ls with
      | some lab => some lab
      | none => some c
    else lastSectionLabel subDir id c k ls

/-- Number of delimiter lines. -/
def delim_count (lines : List String) : Nat :=
  List.countP (fun l => hasPre l.data ("---".data)) lines

/-- Outcome of one student's submitted task as seen at the `future.result()`
boundary: either the pipeline ran in environment `env` and returned its
record, or the task raised an unexpected exception. -/
inductive TaskOutcome where
  | done (env : PipelineEnv)
  | fault

/-- Sentinel row substituted by the scheduler when `future.result()` raises. -/
def crash_record (sid : String) : Record :=
  { student_id := sid
    status := "PIPELINE_CRASH"
    duplication_group := "N/A"
    process_analysis_score := Score.str "N/A"
    location := "N/A" }

/-- The row appended to `report_data` for one completed future: the task's own
record on success, the crash sentinel on an exception. -/
def collect_row (dupMap : List (String × String)) (p : String × TaskOutcome) : Record :=
  match p.2 with
  | TaskOutcome.done env => process_student_submission p.1 env dupMap
  | TaskOutcome.fault => crash_record p.1

/-- Comparator of the final `sorted(report_data, key=lambda item: item['student_id'])`. -/
def row_le (a b : Record) : Bool := decide (a.student_id ≤ b.student_id)

/-- The final re-sort of the collected rows before they are written. -/
def sort_report_rows (rows : List Record) : List Record := rows.mergeSort row_le

/-- Data rows of the final report: one collected row per completed future, in
completion order, then sorted by student id. -/
def report_rows (dupMap : List (String × String))
    (completed : List (String × TaskOutcome)) : List Record :=
  sort_report_rows (completed.map (collect_row dupMap))

/-- Environment in which every stage succeeds: both encrypted artifacts exist
and decode, the restore succeeds, the diff reports the identity marker, and
the inspector reports a score of 87. -/
def env_all_ok : PipelineEnv :=
  { logEncryptedExists := true
    signatureEncryptedExists := true
    decodeLogOk := true
    decodeSignatureOk := true
    logDecryptedExists := true
    restoreOk := true
    originalMainExists := true
    logRestoredExists := true
    diffRun := ScriptOutcome.exitZero "비교 결과: ✅ 파일이 실질적으로 동일합니다" ""
    inspectorExeExists := true
    inspectorRun := ExecOutcome.exitZero "⏺︎ 최종 앙상블 점수: 87 / 100" ""
    signatureFile :=
      SigInput.json (JValue.jobj [("location_info", JValue.jobj [("city", JValue.jstr "Seoul")])]) }

/-- Proposition formalizing the discrimination requirement of claim C7: some
normal failure (non-zero exit) and the launch failure yield different return
values of `run_executable`, so the caller can tell them apart. -/
def run_executable_distinguishes_failures : Prop :=
  ∃ code err,
    run_executable (ExecOutcome.exitNonZero code err) ≠ run_executable ExecOutcome.notFound

/-- C7 counterexample: no pair of a normal failure and a launch failure is
distinguishable from `run_executable`'s return value — both `except` branches
return `None`. -/
theorem run_executable_failures_indistinguishable :
    ¬ run_executable_distinguishes_failures := by
  rintro ⟨c, s, h⟩
  exact h rfl

/-- C7 (amended): the returned result distinguishes normal success (a
completed process with exit code 0 and both captured streams) from failure,
but a non-zero exit and a launch failure both return `None` and cannot be
told apart from the returned value alone. -/
theorem run_executable_outcomes (out err : String) (code : Nat) :
    run_executable (ExecOutcome.exitZero out err)
      = some { returncode := 0, stdout := out, stderr := err }
    ∧ run_executable (ExecOutcome.exitNonZero code err) = none
    ∧ run_executable ExecOutcome.notFound = none :=
  ⟨rfl, rfl, rfl⟩

/-- C10: when the signature file parses as a JSON object whose
`location_info.city` field is present and a string but empty, the recorded
location is "KEY_OR_TYPE_INVALID" — the same sentinel as for an absent city
key or a city of the wrong type. -/
theorem empty_city_key_or_type_invalid (env : PipelineEnv) (sid : String)
    (dupMap : List (String × String)) (fields inner : List (String × JValue))
    (h1 : jlookup fields "location_info" = some (JValue.jobj inner))
    (h2 : jlookup inner "city" = some (JValue.jstr "")) :
    parse_signature_file (SigInput.json (JValue.jobj fields)) = "KEY_OR_TYPE_INVALID"
    ∧ (process_student_submission sid
        { env with signatureFile := SigInput.json (JValue.jobj fields) } dupMap).location
      = "KEY_OR_TYPE_INVALID"
    ∧ parse_signature_file
        (SigInput.json (JValue.jobj [("location_info", JValue.jobj [])]))
      = "KEY_OR_TYPE_INVALID"
    ∧ parse_signature_file
        (SigInput.json (JValue.jobj [("location_info", JValue.jobj [("city", JValue.jnum 3)])]))
      = "KEY_OR_TYPE_INVALID" := by
  have key : parse_signature_file (SigInput.json (JValue.jobj fields)) = "KEY_OR_TYPE_INVALID" := by
    simp [parse_signature_file, h1, h2]
  exact ⟨key, key, by decide, by decide⟩

/-- Closed instance for C10's hypotheses at a concrete signature object. -/
theorem empty_city_key_or_type_invalid_witness :
    jlookup [("location_info", JValue.jobj [("city", JValue.jstr "")])] "location_info"
      = some (JValue.jobj [("city", JValue.jstr "")])
    ∧ jlookup [("city", JValue.jstr "")] "city" = some (JValue.jstr "")
    ∧ parse_signature_file
        (SigInput.json (JValue.jobj [("location_info", JValue.jobj [("city", JValue.jstr "")])]))
      = "KEY_OR_TYPE_INVALID" :=
  ⟨rfl, rfl,
    (empty_city_key_or_type_invalid env_all_ok "student-01" []
      [("location_info", JValue.jobj [("city", JValue.jstr "")])]
      [("city", JValue.jstr "")] rfl rfl).1⟩

/-- Environment identical to `env_all_ok` except that the inspector's stdout
reports the out-of-range score 999. -/
def env_score_999 : PipelineEnv :=
  { env_all_ok with inspectorRun := ExecOutcome.exitZero "⏺︎ 최종 앙상블 점수: 999 / 100" "" }

/-- C8 counterexample: with analyzer stdout "⏺︎ 최종 앙상블 점수: 999 / 100" the
recorded score is the integer 999, which lies outside 0..100, refuting the
claimed range bound. -/
theorem analysis_score_range_counterexample :
    analysis_score_final env_score_999 = Score.int 999
    ∧ (process_student_submission "student-01" env_score_999 []).process_analysis_score
      = Score.int 999
    ∧ 100 < 999 := by
  refine ⟨by decide, by decide, by decide⟩

/-- C8 (amended): the recorded analysis score is one of the sentinels
NOT_ANALYZED, ANALYZER_MISSING, FILE_MISSING, SCORE_NOT_FOUND,
ANALYSIS_FAILED, or the nonnegative integer extracted from the score-pattern
match in the analyzer's stdout; the code applies no range check, so that
integer need not be at most 100. -/
theorem analysis_score_value_space (env : PipelineEnv) :
    analysis_score_final env = Score.str "NOT_ANALYZED"
    ∨ analysis_score_final env = Score.str "ANALYZER_MISSING"
    ∨ analysis_score_final env = Score.str "FILE_MISSING"
    ∨ analysis_score_final env = Score.str "SCORE_NOT_FOUND"
    ∨ analysis_score_final env = Score.str "ANALYSIS_FAILED"
    ∨ ∃ res n, run_executable env.inspectorRun = some res
        ∧ search_score res.stdout.data = some n
        ∧ analysis_score_final env = Score.int n := by
  by_cases hok : pipeline_status_after_restore env = "OK"
  case neg => exact Or.inl (by simp [analysis_score_final, hok])
  cases hexe : env.inspectorExeExists with
  | false => exact Or.inr (Or.inl (by simp [analysis_score_final, hok, hexe]))
  | true =>
  cases hlog : env.logDecryptedExists with
  | false => exact Or.inr (Or.inr (Or.inl (by simp [analysis_score_final, hok, hexe, hlog])))
  | true =>
  rcases hrun : run_executable env.inspectorRun with _ | res
  · exact Or.inr (Or.inr (Or.inr (Or.inr (Or.inl
      (by simp [analysis_score_final, hok, hexe, hlog, hrun])))))
  rcases hs : search_score res.stdout.data with _ | n
  · exact Or.inr (Or.inr (Or.inr (Or.inl
      (by simp [analysis_score_final, hok, hexe, hlog, hrun, hs]))))
  · exact Or.inr (Or.inr (Or.inr (Or.inr (Or.inr
      ⟨res, n, rfl, hs, by simp [analysis_score_final, hok, hexe, hlog, hrun, hs]⟩))))

/-- C2: the record's final status is the failure code (DECRYPT_FAILED or
RESTORE_FAILED) whenever `pipeline_status` left "OK", and is
`comparison_result` otherwise; in particular a run where decrypt and restore
succeed but the diff exits 0 without the identity marker reports "DIFFERENT",
not "OK". -/
theorem final_status_resolution (env : PipelineEnv) (sid : String)
    (dupMap : List (String × String)) (out err : String) :
    (pipeline_status_after_restore env ≠ "OK" →
      (process_student_submission sid env dupMap).status = pipeline_status_after_restore env
      ∧ (pipeline_status_after_restore env = "DECRYPT_FAILED"
         ∨ pipeline_status_after_restore env = "RESTORE_FAILED"))
    ∧ (pipeline_status_after_restore env = "OK" →
      (process_student_submission sid env dupMap).status = comparison_result_final env)
    ∧ (decryption_ok env = true → env.logDecryptedExists = true → env.restoreOk = true →
      env.originalMainExists = true → env.logRestoredExists = true →
      env.diffRun = ScriptOutcome.exitZero out err →
      pyContains out identity_marker = false →
      (process_student_submission sid env dupMap).status = "DIFFERENT") := by
  refine ⟨?_, ?_, ?_⟩
  · intro hne
    constructor
    · simp [process_student_submission, hne]
    · unfold pipeline_status_after_restore pipeline_status_after_decrypt at hne ⊢
      cases hd : decryption_ok env with
      | false => simp [hd]
      | true =>
        simp only [hd, if_true] at hne ⊢
        cases hl : env.logDecryptedExists with
        | false => simp [hl]
        | true =>
          cases hr : env.restoreOk with
          | false => simp [hl, hr]
          | true => simp [hl, hr] at hne
  · intro hok
    simp [process_student_submission, hok]
  · intro h1 h2 h3 h4 h5 h6 h7
    have hok : pipeline_status_after_restore env = "OK" := by
      simp [pipeline_status_after_restore, pipeline_status_after_decrypt, h1, h2, h3]
    simp [process_student_submission, hok, comparison_result_final, h4, h5, h6,
      run_plain_python_script, h7]

/-- Environment identical to `env_all_ok` except that the diff tool exits 0
with a stdout that does not contain the identity marker. -/
def env_mismatch : PipelineEnv :=
  { env_all_ok with diffRun := ScriptOutcome.exitZero "두 파일이 서로 다릅니다" "" }

/-- Closed instance of C2: in `env_mismatch` decrypt and restore succeed, the
diff exits 0 without the marker, and the final status is "DIFFERENT". -/
theorem final_status_resolution_witness :
    decryption_ok env_mismatch = true
    ∧ pyContains "두 파일이 서로 다릅니다" identity_marker = false
    ∧ (process_student_submission "student-05" env_mismatch []).status = "DIFFERENT" :=
  ⟨by decide, by decide,
    (final_status_resolution env_mismatch "student-05" [] "두 파일이 서로 다릅니다" "").2.2
      (by decide) rfl rfl rfl rfl rfl (by decide)⟩

/-- C3: when the Decrypt stage fails, the final status is DECRYPT_FAILED,
`comparison_result` stays NOT_CHECKED and `analysis_score` stays
NOT_ANALYZED — no later stage runs or overwrites the failure. -/
theorem decrypt_failure_short_circuit (env : PipelineEnv) (sid : String)
    (dupMap : List (String × String)) (hfail : decryption_ok env = false) :
    (process_student_submission sid env dupMap).status = "DECRYPT_FAILED"
    ∧ comparison_result_final env = "NOT_CHECKED"
    ∧ analysis_score_final env = Score.str "NOT_ANALYZED"
    ∧ (process_student_submission sid env dupMap).process_analysis_score
      = Score.str "NOT_ANALYZED" := by
  have hst : pipeline_status_after_restore env = "DECRYPT_FAILED" := by
    simp [pipeline_status_after_restore, pipeline_status_after_decrypt, hfail]
  refine ⟨?_, ?_, ?_, ?_⟩ <;>
    simp [process_student_submission, comparison_result_final, analysis_score_final, hst]

/-- Environment identical to `env_all_ok` except that decoding the encrypted
log fails. -/
def env_decrypt_fail : PipelineEnv := { env_all_ok with decodeLogOk := false }

/-- Closed instance of C3 at `env_decrypt_fail`. -/
theorem decrypt_failure_short_circuit_witness :
    decryption_ok env_decrypt_fail = false
    ∧ (process_student_submission "student-02" env_decrypt_fail []).status = "DECRYPT_FAILED"
    ∧ (process_student_submission "student-02" env_decrypt_fail []).process_analysis_score
      = Score.str "NOT_ANALYZED" :=
  ⟨by decide,
    (decrypt_failure_short_circuit env_decrypt_fail "student-02" [] (by decide)).1,
    (decrypt_failure_short_circuit env_decrypt_fail "student-02" [] (by decide)).2.2.2⟩

/-- C4: for an item reaching Compare with pipeline status "OK": a missing
original or restored file gives `comparison_result = FILE_MISSING`; otherwise
exit 0 with the identity marker in stdout gives final status "OK", exit 0
without it gives "DIFFERENT", and a failed invocation gives "CHECK_FAILED". -/
theorem compare_stage_outcomes (env : PipelineEnv) (sid : String)
    (dupMap : List (String × String))
    (hok : pipeline_status_after_restore env = "OK") :
    ((env.originalMainExists = false ∨ env.logRestoredExists = false) →
      comparison_result_final env = "FILE_MISSING"
      ∧ (process_student_submission sid env dupMap).status = "FILE_MISSING")
    ∧ (∀ out err, env.originalMainExists = true → env.logRestoredExists = true →
      env.diffRun = ScriptOutcome.exitZero out err →
      (pyContains out identity_marker = true →
        (process_student_submission sid env dupMap).status = "OK")
      ∧ (pyContains out identity_marker = false →
        (process_student_submission sid env dupMap).status = "DIFFERENT"))
    ∧ (∀ code err, env.originalMainExists = true → env.logRestoredExists = true →
      env.diffRun = ScriptOutcome.exitNonZero code err →
      (process_student_submission sid env dupMap).status = "CHECK_FAILED") := by
  refine ⟨?_, ?_, ?_⟩
  · intro hmiss
    have key : comparison_result_final env = "FILE_MISSING" := by
      rcases hmiss with h | h <;> simp [comparison_result_final, hok, h]
    exact ⟨key, by simp [process_student_submission, hok, key]⟩
  · intro out err h4 h5 h6
    constructor <;> intro hmark <;>
      simp [process_student_submission, comparison_result_final, hok, h4, h5, h6,
        run_plain_python_script, hmark]
  · intro code err h4 h5 h6
    simp [process_student_submission, comparison_result_final, hok, h4, h5, h6,
      run_plain_python_script]

/-- Closed instance of C4 at `env_all_ok`: the diff stdout carries the
identity marker and the final status is "OK". -/
theorem compare_stage_outcomes_witness :
    pipeline_status_after_restore env_all_ok = "OK"
    ∧ pyContains "비교 결과: ✅ 파일이 실질적으로 동일합니다" identity_marker = true
    ∧ (process_student_submission "student-03" env_all_ok []).status = "OK" :=
  ⟨by decide, by decide,
    ((compare_stage_outcomes env_all_ok "student-03" [] (by decide)).2.1
      "비교 결과: ✅ 파일이 실질적으로 동일합니다" "" rfl rfl rfl).1 (by decide)⟩

theorem row_le_trans : ∀ a b c : Record,
    row_le a b = true → row_le b c = true → row_le a c = true := by
  intro a b c hab hbc
  simp only [row_le, decide_eq_true_eq] at *
  exact le_trans hab hbc

theorem row_le_total : ∀ a b : Record, (row_le a b || row_le b a) = true := by
  intro a b
  simp only [row_le, Bool.or_eq_true, decide_eq_true_eq]
  exact le_total _ _

theorem sort_report_rows_perm (rows : List Record) : (sort_report_rows rows).Perm rows :=
  List.mergeSort_perm rows row_le

theorem sort_report_rows_sorted (rows : List Record) :
    (sort_report_rows rows).Sorted (fun a b => a.student_id ≤ b.student_id) := by
  have h := List.sorted_mergeSort row_le_trans row_le_total rows
  exact h.imp fun hab => of_decide_eq_true hab

/-- C5: the order of the report's data rows is a pure function of the
collected records — the records sorted ascending by `student_id` — so any two
completion orders of the same records produce identical output. -/
theorem report_order_deterministic (l1 l2 : List Record)
    (hperm : l1.Perm l2) (hnd : (l1.map Record.student_id).Nodup) :
    sort_report_rows l1 = sort_report_rows l2
    ∧ (sort_report_rows l1).Sorted (fun a b => a.student_id ≤ b.student_id)
    ∧ (sort_report_rows l1).Perm l1 := by
  have p1 := sort_report_rows_perm l1
  have p2 := sort_report_rows_perm l2
  have s1 := sort_report_rows_sorted l1
  have s2 := sort_report_rows_sorted l2
  refine ⟨?_, s1, p1⟩
  have hp : (sort_report_rows l1).Perm (sort_report_rows l2) := p1.trans (hperm.trans p2.symm)
  have hnd2 : (l2.map Record.student_id).Nodup := (hperm.map _).nodup_iff.mp hnd
  have key : ∀ l : List Record, (l.map Record.student_id).Nodup →
      l.Sorted (fun a b => a.student_id ≤ b.student_id) →
      List.Pairwise (fun a b : Record => a.student_id < b.student_id) l := by
    intro l hn hs
    have hs' : List.Pairwise (fun a b : Record => a.student_id ≤ b.student_id) l := hs
    have hne : List.Pairwise (fun a b : Record => a.student_id ≠ b.student_id) l :=
      List.pairwise_map.mp hn
    exact (hs'.and hne).imp fun h => lt_of_le_of_ne h.1 h.2
  have st1 := key _ ((p1.map _).nodup_iff.mpr hnd) s1
  have st2 := key _ ((p2.map _).nodup_iff.mpr hnd2) s2
  exact @List.eq_of_perm_of_sorted Record (fun a b => a.student_id < b.student_id)
    ⟨fun a b h1 h2 => (lt_asymm h1 h2).elim⟩ _ _ hp st1 st2

/-- Sample record of a fully successful run, used in closed instances. -/
def rec_a : Record :=
  { student_id := "student-01", status := "OK", duplication_group := "A",
    process_analysis_score := Score.int 95, location := "Seoul" }

/-- Sample record of a mismatching run, used in closed instances. -/
def rec_b : Record :=
  { student_id := "student-02", status := "DIFFERENT", duplication_group := "UNIQUE",
    process_analysis_score := Score.str "NOT_ANALYZED", location := "Busan" }

/-- Closed instance of C5: two completion orders of the same two records
produce the same sorted rows. -/
theorem report_order_deterministic_witness :
    List.Perm [rec_b, rec_a] [rec_a, rec_b]
    ∧ ([rec_b, rec_a].map Record.student_id).Nodup
    ∧ sort_report_rows [rec_b, rec_a] = sort_report_rows [rec_a, rec_b] :=
  ⟨List.Perm.swap rec_a rec_b [], by decide,
    (report_order_deterministic [rec_b, rec_a] [rec_a, rec_b]
      (List.Perm.swap rec_a rec_b []) (by decide)).1⟩

theorem collect_row_student_id (dupMap : List (String × String)) (p : String × TaskOutcome) :
    (collect_row dupMap p).student_id = p.1 := by
  rcases p with ⟨sd, o⟩
  cases o <;> rfl

/-- C1: the report has exactly one data row per discovered item, whatever the
completion order; an item whose task raised an unexpected fault contributes
the crash sentinel row (status "PIPELINE_CRASH", all other fields "N/A"), and
the rows are still produced for the whole batch. -/
theorem scheduler_one_row_per_item (dupMap : List (String × String))
    (items completed : List (String × TaskOutcome))
    (hperm : completed.Perm items) (hnd : (items.map Prod.fst).Nodup) :
    (report_rows dupMap completed).length = items.length
    ∧ (∀ sd, sd ∈ items.map Prod.fst →
      (report_rows dupMap completed).countP (fun r => r.student_id == sd) = 1)
    ∧ (∀ sd, (sd, TaskOutcome.fault) ∈ items →
      crash_record sd ∈ report_rows dupMap completed) := by
  have hp : (report_rows dupMap completed).Perm (items.map (collect_row dupMap)) :=
    (List.mergeSort_perm _ _).trans (hperm.map _)
  refine ⟨?_, ?_, ?_⟩
  · rw [hp.length_eq, List.length_map]
  · intro sd hsd
    rw [List.Perm.countP_eq _ hp, List.countP_map]
    have hfn : ((fun r => r.student_id == sd) ∘ collect_row dupMap)
        = fun p => p.1 == sd := by
      funext p
      simp [Function.comp, collect_row_student_id]
    rw [hfn]
    have hcnt : List.countP (fun p => p.1 == sd) items
        = List.count sd (items.map Prod.fst) := by
      rw [List.count, List.countP_map]
      rfl
    rw [hcnt]
    exact List.count_eq_one_of_mem hnd hsd
  · intro sd hsd
    have h1 : crash_record sd ∈ items.map (collect_row dupMap) := by
      have heq : collect_row dupMap (sd, TaskOutcome.fault) = crash_record sd := rfl
      exact heq ▸ List.mem_map_of_mem (collect_row dupMap) hsd
    exact hp.mem_iff.mpr h1

/-- Work-item list with one faulting task and one successful task. -/
def c1_items : List (String × TaskOutcome) :=
  [("student-01", TaskOutcome.fault), ("student-02", TaskOutcome.done env_all_ok)]

/-- Closed instance of C1: a batch with one crashed task still yields one row
per item, and the crashed item's row is the crash sentinel. -/
theorem scheduler_one_row_per_item_witness :
    (c1_items.map Prod.fst).Nodup
    ∧ (report_rows [] c1_items).length = c1_items.length
    ∧ crash_record "student-01" ∈ report_rows [] c1_items :=
  ⟨by decide,
    (scheduler_one_row_per_item [] c1_items c1_items (List.Perm.refl _) (by decide)).1,
    (scheduler_one_row_per_item [] c1_items c1_items (List.Perm.refl _) (by decide)).2.2
      "student-01" (List.mem_cons_self _ _)⟩

theorem dlookup_dinsert_self (m : List (String × String)) (k v : String) :
    dlookup (dinsert m k v) k = some v := by
  induction m with
  | nil => simp [dinsert, dlookup]
  | cons kv rest ih =>
    rcases kv with ⟨k0, v0⟩
    by_cases h : k0 = k
    · simp [dinsert, dlookup, h]
    · simp [dinsert, dlookup, h, ih]

theorem dlookup_dinsert_of_ne (m : List (String × String)) (k k2 v : String)
    (h : k2 ≠ k) : dlookup (dinsert m k2 v) k = dlookup m k := by
  induction m with
  | nil => simp [dinsert, dlookup, h]
  | cons kv rest ih =>
    rcases kv with ⟨k0, v0⟩
    by_cases h0 : k0 = k2
    · subst h0
      simp [dinsert, dlookup, h]
    · simp [dinsert, dlookup, h0, ih]

/-- Lookup after the parsing loop: the final binding of `id` is the label of
the last section of the remaining lines in which `id` is extracted, falling
back to the binding already in the incoming map. -/
theorem foldl_dupStep_dlookup (subDir id : String) (lines : List String) :
    ∀ st : DupState,
      dlookup (lines.foldl (dupStep subDir) st).map id
        = (lastSectionLabel subDir id st.current st.counter lines).or (dlookup st.map id) := by
  induction lines with
  | nil => intro st; rfl
  | cons l ls ih =>
    intro st
    rw [List.foldl_cons]
    cases hd : hasPre l.data ("---".data) with
    | true =>
      have hstep : dupStep subDir st l
          = { counter := st.counter + 1, current := group_label (st.counter + 1),
              map := st.map } := by
        simp [dupStep, hd]
      rw [hstep, ih]
      simp [lastSectionLabel, hd]
    | false =>
      rcases he : line_extract subDir l with _ | sid
      · have hstep : dupStep subDir st l = st := by simp [dupStep, hd, he]
        rw [hstep, ih]
        simp [lastSectionLabel, hd, he]
      · by_cases hid : sid = id
        · subst hid
          have hstep : dupStep subDir st l = { st with map := dinsert st.map sid st.current } := by
            simp [dupStep, hd, he]
          rw [hstep, ih]
          simp only [lastSectionLabel, hd, he, Bool.false_eq_true, if_false]
          rw [dlookup_dinsert_self]
          cases lastSectionLabel subDir sid st.current st.counter ls <;> simp [Option.or]
        · have hstep : dupStep subDir st l = { st with map := dinsert st.map sid st.current } := by
            simp [dupStep, hd, he]
          rw [hstep, ih]
          rw [dlookup_dinsert_of_ne st.map id sid st.current hid]
          have hcond : ¬ line_extract subDir l = some id := by
            rw [he]
            intro hcontra
            exact hid (Option.some.inj hcontra)
          simp [lastSectionLabel, hd, hcond]

/-- An identifier extracted in no section of the lines has no last label. -/
theorem lastSectionLabel_none (subDir id : String) (lines : List String) :
    ∀ (c : String) (k : Nat),
      (∀ m, memberInSection subDir id m lines = false) →
      lastSectionLabel subDir id c k lines = none := by
  induction lines with
  | nil => intro c k _; rfl
  | cons l ls ih =>
    intro c k h
    cases hd : hasPre l.data ("---".data) with
    | true =>
      have h' : ∀ m, memberInSection subDir id m ls = false := by
        intro m
        have hm := h (m + 1)
        simp only [memberInSection, hd, if_true] at hm
        exact hm
      simp only [lastSectionLabel, hd, if_true]
      exact ih _ _ h'
    | false =>
      have h0 := h 0
      simp only [memberInSection, hd, Bool.false_eq_true, if_false] at h0
      simp at h0
      have h' : ∀ m, memberInSection subDir id m ls = false := by
        intro m
        have hm := h m
        simp only [memberInSection, hd, Bool.false_eq_true, if_false] at hm
        simp at hm
        exact hm.2
      have hcond : ¬ line_extract subDir l = some id := by
        intro hcontra
        rw [hcontra] at h0
        simp at h0
      simp only [lastSectionLabel, hd, Bool.false_eq_true, if_false, hcond]
      exact ih _ _ h'

/-- When `id` is extracted only in section `n` of the lines, the last-section
label is section n's label: the incoming current label for the preamble
(n = 0), and the (k+n)-th group letter otherwise. -/
theorem lastSectionLabel_of_unique (subDir id : String) (lines : List String) :
    ∀ (n : Nat) (c : String) (k : Nat),
      memberInSection subDir id n lines = true →
      (∀ m, memberInSection subDir id m lines = true → m = n) →
      lastSectionLabel subDir id c k lines
        = some (if n = 0 then c else group_label (k + n)) := by
  induction lines with
  | nil =>
    intro n c k h1 _
    simp [memberInSection] at h1
  | cons l ls ih =>
    intro n c k h1 h2
    cases hd : hasPre l.data ("---".data) with
    | true =>
      rcases n with _ | m
      · simp only [memberInSection, hd, if_true] at h1
        exact Bool.noConfusion h1
      · simp only [memberInSection, hd, if_true] at h1
        have h2' : ∀ m2, memberInSection subDir id m2 ls = true → m2 = m := by
          intro m2 hm2
          have hstep : memberInSection subDir id (m2 + 1) (l :: ls) = true := by
            simp only [memberInSection, hd, if_true]
            exact hm2
          have := h2 (m2 + 1) hstep
          omega
        simp only [lastSectionLabel, hd, if_true]
        rw [ih m (group_label (k + 1)) (k + 1) h1 h2']
        rcases m with _ | m2
        · simp
        · have harith : k + 1 + (m2 + 1) = k + (m2 + 1 + 1) := by omega
          simp [harith]
    | false =>
      rcases he : line_extract subDir l with _ | sid
      · have hne : (line_extract subDir l == some id) = false := by rw [he]; rfl
        have h1' : memberInSection subDir id n ls = true := by
          simp only [memberInSection, hd, Bool.false_eq_true, if_false, hne,
            Bool.and_false, Bool.false_or] at h1
          exact h1
        have h2' : ∀ m, memberInSection subDir id m ls = true → m = n := by
          intro m hm
          exact h2 m (by simp [memberInSection, hd, hm])
        have hcond : ¬ line_extract subDir l = some id := by
          rw [he]
          intro hcontra
          exact Option.noConfusion hcontra
        simp only [lastSectionLabel, hd, Bool.false_eq_true, if_false, hcond]
        exact ih n c k h1' h2'
      · by_cases hid : sid = id
        · subst hid
          have hmem0 : memberInSection subDir sid 0 (l :: ls) = true := by
            simp [memberInSection, hd, he]
          have hn : n = 0 := (h2 0 hmem0).symm
          subst hn
          simp only [lastSectionLabel, hd, Bool.false_eq_true, if_false, he, if_pos rfl]
          by_cases hany : ∀ m, memberInSection subDir sid m ls = false
          · rw [lastSectionLabel_none subDir sid ls c k hany]
            simp
          · push_neg at hany
            obtain ⟨m, hm⟩ := hany
            have hm : memberInSection subDir sid m ls = true := by
              revert hm
              cases memberInSection subDir sid m ls <;> simp
            have hm' : memberInSection subDir sid m (l :: ls) = true := by
              simp [memberInSection, hd, hm]
            have hm0 : m = 0 := h2 m hm'
            subst hm0
            have h2'' : ∀ m2, memberInSection subDir sid m2 ls = true → m2 = 0 := by
              intro m2 hm2
              exact h2 m2 (by simp [memberInSection, hd, hm2])
            rw [ih 0 c k hm h2'']
            simp
        · have hne : (line_extract subDir l == some id) = false := by
            rw [he]
            simp [hid]
          have h1' : memberInSection subDir id n ls = true := by
            simp only [memberInSection, hd, Bool.false_eq_true, if_false, hne,
              Bool.and_false, Bool.false_or] at h1
            exact h1
          have h2' : ∀ m, memberInSection subDir id m ls = true → m = n := by
            intro m hm
            exact h2 m (by simp [memberInSection, hd, hm])
          have hcond : ¬ line_extract subDir l = some id := by
            rw [he]
            intro hcontra
            exact hid (Option.some.inj hcontra)
          simp only [lastSectionLabel, hd, Bool.false_eq_true, if_false, hcond]
          exact ih n c k h1' h2'

/-- A section in which `id` is extracted is bounded by the number of
delimiter lines. -/
theorem memberInSection_le_delim_count (subDir id : String) (lines : List String) :
    ∀ m, memberInSection subDir id m lines = true → m ≤ delim_count lines := by
  induction lines with
  | nil =>
    intro m h
    simp [memberInSection] at h
  | cons l ls ih =>
    intro m h
    cases hd : hasPre l.data ("---".data) with
    | true =>
      have hdc : delim_count (l :: ls) = delim_count ls + 1 := by
        simp [delim_count, List.countP_cons, hd]
      rcases m with _ | m'
      · omega
      · simp only [memberInSection, hd, if_true] at h
        have := ih m' h
        omega
    | false =>
      have hdc : delim_count (l :: ls) = delim_count ls := by
        simp [delim_count, List.countP_cons, hd]
      rcases m with _ | m'
      · omega
      · simp only [memberInSection, hd, Bool.false_eq_true, if_false] at h
        simp at h
        have := ih (m' + 1) h
        omega

/-- The duplication-map consultation equals the last-section label of the
stripped, split stdout, with "UNIQUE" for identifiers never extracted. -/
theorem build_duplication_map_dget (subDir stdout id : String) :
    dget (build_duplication_map subDir stdout) id
      = (lastSectionLabel subDir id "" 0 (split_lines (pyStrip stdout))).getD "UNIQUE" := by
  unfold dget build_duplication_map dup_map_of_lines
  rw [foldl_dupStep_dlookup]
  cases lastSectionLabel subDir id "" 0 (split_lines (pyStrip stdout)) <;> rfl

/-- C6 (amended): the n-th group encountered in the duplicate-finder stdout is
labeled with the n-th consecutive letter starting at 'A'; an item identifier
extracted from that group's member lines and from no other section maps to
that label (an identifier extracted again in a later group would be
overwritten with the later label); identifiers extracted nowhere are looked
up as "UNIQUE". -/
theorem duplicate_group_labeling (subDir stdout id : String) (n : Nat)
    (hn : 1 ≤ n)
    (h1 : memberInSection subDir id n (split_lines (pyStrip stdout)) = true)
    (h2 : ∀ m, memberInSection subDir id m (split_lines (pyStrip stdout)) = true → m = n) :
    dget (build_duplication_map subDir stdout) id = group_label n
    ∧ group_label n = String.mk [Char.ofNat (65 + n - 1)]
    ∧ (∀ id2, (∀ m, memberInSection subDir id2 m (split_lines (pyStrip stdout)) = false) →
      dget (build_duplication_map subDir stdout) id2 = "UNIQUE") := by
  refine ⟨?_, rfl, ?_⟩
  · rw [build_duplication_map_dget,
      lastSectionLabel_of_unique subDir id (split_lines (pyStrip stdout)) n "" 0 h1 h2]
    have hne : ¬ n = 0 := by omega
    simp [hne]
  · intro id2 hid2
    rw [build_duplication_map_dget,
      lastSectionLabel_none subDir id2 (split_lines (pyStrip stdout)) "" 0 hid2]
    rfl

/-- Duplicate-finder stdout with a single group containing one member line. -/
def c6_stdout : String := "---\n1 - student_submission/student-09/log.encrypted"

/-- Closed instance of C6 (amended): the sole member of group 1 is labeled "A". -/
theorem duplicate_group_labeling_witness :
    memberInSection "student_submission" "student-09" 1 (split_lines (pyStrip c6_stdout)) = true
    ∧ dget (build_duplication_map "student_submission" c6_stdout) "student-09" = "A" := by
  refine ⟨by decide, ?_⟩
  have h2 : ∀ m, memberInSection "student_submission" "student-09" m
      (split_lines (pyStrip c6_stdout)) = true → m = 1 := by
    intro m hm
    have hle := memberInSection_le_delim_count "student_submission" "student-09"
      (split_lines (pyStrip c6_stdout)) m hm
    have hdc : delim_count (split_lines (pyStrip c6_stdout)) = 1 := by decide
    rw [hdc] at hle
    rcases m with _ | _ | m
    · exact absurd hm (by decide)
    · rfl
    · omega
  have h := duplicate_group_labeling "student_submission" c6_stdout "student-09" 1
    (by omega) (by decide) h2
  exact h.1.trans (by decide)

/-- Duplicate-finder stdout in which the same identifier appears in the member
lines of both group 1 and group 2. -/
def c6_bad_stdout : String :=
  "---\n1 - student_submission/student-01/log.encrypted\n---\n1 - student_submission/student-01/log.encrypted"

/-- C6 counterexample: "student-01" is extracted from group 1's member lines,
yet its final duplication label is "B" (the later group's label), not group
1's label "A" — the dict assignment overwrites the earlier binding. -/
theorem duplicate_group_labeling_counterexample :
    memberInSection "student_submission" "student-01" 1 (split_lines (pyStrip c6_bad_stdout)) = true
    ∧ dget (build_duplication_map "student_submission" c6_bad_stdout) "student-01" = "B"
    ∧ group_label 1 = "A" := by
  refine ⟨by decide, by decide, by decide⟩

/-- C9 (amended): an identifier extracted from a member line seen before any
delimiter line (and extracted nowhere later) is bound to the empty-string
label — neither skipped nor "UNIQUE" — and that empty label is what the
item's report row receives. -/
theorem preamble_member_empty_label (subDir stdout id : String) (env : PipelineEnv)
    (h1 : memberInSection subDir id 0 (split_lines (pyStrip stdout)) = true)
    (h2 : ∀ m, memberInSection subDir id m (split_lines (pyStrip stdout)) = true → m = 0) :
    dget (build_duplication_map subDir stdout) id = ""
    ∧ dget (build_duplication_map subDir stdout) id ≠ "UNIQUE"
    ∧ (process_student_submission id env (build_duplication_map subDir stdout)).duplication_group
      = "" := by
  have key : dget (build_duplication_map subDir stdout) id = "" := by
    rw [build_duplication_map_dget,
      lastSectionLabel_of_unique subDir id (split_lines (pyStrip stdout)) 0 "" 0 h1 h2]
    rfl
  refine ⟨key, ?_, key⟩
  rw [key]
  decide

/-- Duplicate-finder stdout consisting of a single member line before any
delimiter. -/
def c9_stdout : String := "1 - student_submission/student-07/log.encrypted"

/-- Closed instance of C9 (amended): the preamble member is bound to "". -/
theorem preamble_member_empty_label_witness :
    memberInSection "student_submission" "student-07" 0 (split_lines (pyStrip c9_stdout)) = true
    ∧ dget (build_duplication_map "student_submission" c9_stdout) "student-07" = "" := by
  refine ⟨by decide, ?_⟩
  have h2 : ∀ m, memberInSection "student_submission" "student-07" m
      (split_lines (pyStrip c9_stdout)) = true → m = 0 := by
    intro m hm
    have hle := memberInSection_le_delim_count "student_submission" "student-07"
      (split_lines (pyStrip c9_stdout)) m hm
    have hdc : delim_count (split_lines (pyStrip c9_stdout)) = 0 := by decide
    rw [hdc] at hle
    omega
  exact (preamble_member_empty_label "student_submission" c9_stdout "student-07" env_all_ok
    (by decide) h2).1

/-- Duplicate-finder stdout in which the same identifier appears before any
delimiter and again inside group 1. -/
def c9_bad_stdout : String :=
  "1 - student_submission/student-02/log.encrypted\n---\n1 - student_submission/student-02/log.encrypted"

/-- C9 counterexample: "student-02" is extracted from a member line before any
delimiter, yet its final duplication label is "A", not the empty string — the
later group's assignment overwrites the preamble binding, so the empty label
does not appear in the report row. -/
theorem preamble_member_empty_label_counterexample :
    memberInSection "student_submission" "student-02" 0 (split_lines (pyStrip c9_bad_stdout)) = true
    ∧ dget (build_duplication_map "student_submission" c9_bad_stdout) "student-02" = "A"
    ∧ "A" ≠ "" := by
  refine ⟨by decide, by decide, by decide⟩
